import Mathlib

/-!
# Verification of the team-sync backend handlers

A shallow embedding of the TypeScript handlers of the team-collaboration
backend (users, teams, membership approval, todo tasks, shopping lists,
calendar events).  Rows are Lean structures; the relational store is a
`DB` record of row lists plus per-table id counters; timestamps are `Nat`
values, with the clock passed to each handler as an explicit `now`
argument.  Each handler is translated statement by statement from its
source file: fallible handlers return `Except String`, carrying the exact
error strings of the source, and SQL `update ... where id = x` becomes a
`List.map` that rewrites every row whose id matches.
-/

namespace TeamSync

/-- `tier` enum of users (schema.ts `userTierEnum`). -/
inductive UserTier where
  | free | paid
deriving Repr, DecidableEq

/-- `status` enum of users (schema.ts `userStatusEnum`). -/
inductive UserStatus where
  | active | inactive | suspended
deriving Repr, DecidableEq

/-- `status` enum of team memberships (schema.ts `membershipStatusEnum`). -/
inductive MembershipStatus where
  | active | pending | rejected
deriving Repr, DecidableEq

/-- Task priority enum (schema.ts `taskPriorityEnum`). -/
inductive TaskPriority where
  | P0 | P1 | P2 | P3
deriving Repr, DecidableEq

/-- Task status enum (schema.ts `taskStatusEnum`). -/
inductive TaskStatus where
  | todo | in_progress | completed
deriving Repr, DecidableEq

/-- A row of `usersTable`. -/
structure User where
  id : Nat
  email : String
  name : String
  tier : UserTier
  status : UserStatus
  created_at : Nat
  updated_at : Nat
deriving Repr, DecidableEq

/-- A row of `teamsTable`. -/
structure Team where
  id : Nat
  name : String
  description : Option String
  created_by : Nat
  created_at : Nat
  updated_at : Nat
deriving Repr, DecidableEq

/-- A row of `teamMembershipsTable`. -/
structure TeamMembership where
  id : Nat
  team_id : Nat
  user_id : Nat
  status : MembershipStatus
  joined_at : Option Nat
  created_at : Nat
deriving Repr, DecidableEq

/-- A row of `tasksTable`. -/
structure Task where
  id : Nat
  todo_list_id : Nat
  title : String
  description : Option String
  priority : Option TaskPriority
  status : TaskStatus
  assigned_to : Option Nat
  due_date : Option Nat
  completed_at : Option Nat
  created_by : Nat
  created_at : Nat
  updated_at : Nat
deriving Repr, DecidableEq

/-- A row of `shoppingListsTable`. -/
structure ShoppingList where
  id : Nat
  team_id : Nat
  name : String
  description : Option String
  created_by : Nat
  created_at : Nat
  updated_at : Nat
deriving Repr, DecidableEq

/-- A row of `todoListsTable`. -/
structure TodoList where
  id : Nat
  team_id : Nat
  name : String
  description : Option String
  created_by : Nat
  created_at : Nat
  updated_at : Nat
deriving Repr, DecidableEq

/-- A row of `featuresTable`. -/
structure Feature where
  id : Nat
  name : String
  description : Option String
  is_enabled_free : Bool
  is_enabled_paid : Bool
  created_at : Nat
  updated_at : Nat
deriving Repr, DecidableEq

/-- A row of `shoppingItemsTable`. -/
structure ShoppingItem where
  id : Nat
  shopping_list_id : Nat
  name : String
  quantity : Nat
  comment : Option String
  is_purchased : Bool
  purchased_by : Option Nat
  purchased_at : Option Nat
  created_by : Nat
  created_at : Nat
  updated_at : Nat
deriving Repr, DecidableEq

/-- A row of `calendarEventsTable`. -/
structure CalendarEvent where
  id : Nat
  team_id : Nat
  title : String
  description : Option String
  start_time : Nat
  end_time : Nat
  is_all_day : Bool
  location : Option String
  created_by : Nat
  created_at : Nat
  updated_at : Nat
deriving Repr, DecidableEq

/-- The relational store: one list per table plus auto-increment counters. -/
structure DB where
  users : List User
  teams : List Team
  memberships : List TeamMembership
  todoLists : List TodoList
  tasks : List Task
  shoppingLists : List ShoppingList
  shoppingItems : List ShoppingItem
  events : List CalendarEvent
  features : List Feature
  nextTeamId : Nat
  nextMembershipId : Nat
  nextShoppingListId : Nat
  nextTaskId : Nat
  nextShoppingItemId : Nat
  nextEventId : Nat
deriving Repr, DecidableEq

/-- The freshly created store: every table empty. -/
def DB.init : DB :=
  { users := [], teams := [], memberships := [], todoLists := [],
    tasks := [], shoppingLists := [], shoppingItems := [], events := [],
    features := [],
    nextTeamId := 1, nextMembershipId := 1, nextShoppingListId := 1,
    nextTaskId := 1, nextShoppingItemId := 1, nextEventId := 1 }

/-- Embedding of `requestTeamMembership`
(src/server/src/handlers/request_team_membership.ts lines 6-59): checks the
team exists, the user exists, and that no membership row for the
(team, user) pair exists in any status; then inserts one pending row with
`joined_at = null` and returns it. -/
def requestTeamMembership (team_id userId now : Nat) (db : DB) :
    Except String (TeamMembership × DB) :=
  if (db.teams.filter (fun t => t.id == team_id)).isEmpty then
    .error "Team not found"
  else if (db.users.filter (fun u => u.id == userId)).isEmpty then
    .error "User not found"
  else if !(db.memberships.filter
      (fun m => m.team_id == team_id && m.user_id == userId)).isEmpty then
    .error "User already has a membership request or is already a member"
  else
    let row : TeamMembership :=
      { id := db.nextMembershipId, team_id := team_id, user_id := userId,
        status := .pending, joined_at := none, created_at := now }
    .ok (row, { db with memberships := db.memberships ++ [row],
                        nextMembershipId := db.nextMembershipId + 1 })

/-- Embedding of `approveTeamMembership` (src/unnamed/part_003 lines 44-93):
looks up the membership row by id, requires status `pending`, requires the
approver to hold an active membership row for the same team, then sets
status to `active` and `joined_at` to now on every row with that id and
returns the updated row. -/
def approveTeamMembership (membership_id approverId now : Nat) (db : DB) :
    Except String (TeamMembership × DB) :=
  match db.memberships.find? (fun m => m.id == membership_id) with
  | none => .error "Membership request not found"
  | some membership =>
    if membership.status ≠ .pending then
      .error "Membership request is not pending"
    else if (db.memberships.filter (fun m =>
        m.team_id == membership.team_id && m.user_id == approverId &&
        m.status == MembershipStatus.active)).isEmpty then
      .error "Approver must be an active member of the team"
    else
      let upd : TeamMembership → TeamMembership := fun m =>
        if m.id == membership_id then
          { m with status := .active, joined_at := some now }
        else m
      .ok ({ membership with status := .active, joined_at := some now },
           { db with memberships := db.memberships.map upd })

/-- Embedding of `createTeam` (src/unnamed/part_001 lines 24-58): inside a
single transaction, inserts the team row and an active membership row for
the creator with `joined_at = now`, and returns the team.  The transaction
is rendered by the function updating both tables in one step. -/
def createTeam (name : String) (description : Option String)
    (userId now : Nat) (db : DB) : Team × DB :=
  let team : Team :=
    { id := db.nextTeamId, name := name, description := description,
      created_by := userId, created_at := now, updated_at := now }
  let mem : TeamMembership :=
    { id := db.nextMembershipId, team_id := team.id, user_id := userId,
      status := .active, joined_at := some now, created_at := now }
  (team, { db with teams := db.teams ++ [team],
                   memberships := db.memberships ++ [mem],
                   nextTeamId := db.nextTeamId + 1,
                   nextMembershipId := db.nextMembershipId + 1 })

/-- Input of `updateTask` (schema.ts `updateTaskInputSchema`).  An outer
`none` is a field absent from the input (left unchanged); for nullable
columns `some none` is an explicit null. -/
structure UpdateTaskInput where
  id : Nat
  title : Option String
  description : Option (Option String)
  priority : Option (Option TaskPriority)
  status : Option TaskStatus
  assigned_to : Option (Option Nat)
  due_date : Option (Option Nat)
deriving Repr, DecidableEq

/-- The dynamic update object of `updateTask`
(src/server/src/handlers/update_task.ts lines 100-130) applied to one row:
always refreshes `updated_at`; copies each input field that is present;
when `status` is present, sets `completed_at` to now if the new status is
`completed` and clears it to null otherwise. -/
def applyTaskUpdate (input : UpdateTaskInput) (now : Nat) (t : Task) : Task :=
  let t := { t with updated_at := now }
  let t := match input.title with | some v => { t with title := v } | none => t
  let t := match input.description with
    | some v => { t with description := v } | none => t
  let t := match input.priority with
    | some v => { t with priority := v } | none => t
  let t := match input.status with
    | some s =>
      let ca : Option Nat := if s = TaskStatus.completed then some now else none
      { t with status := s, completed_at := ca }
    | none => t
  let t := match input.assigned_to with
    | some v => { t with assigned_to := v } | none => t
  match input.due_date with
    | some v => { t with due_date := v } | none => t

/-- Embedding of `updateTask` (src/server/src/handlers/update_task.ts
lines 98-148): applies the dynamic update object to every row whose id
matches; when no row matched, fails naming the id; otherwise returns the
updated row. -/
def updateTask (input : UpdateTaskInput) (now : Nat) (db : DB) :
    Except String (Task × DB) :=
  match db.tasks.find? (fun t => t.id == input.id) with
  | none => .error ("Task with id " ++ toString input.id ++ " not found")
  | some t =>
    .ok (applyTaskUpdate input now t,
         { db with tasks := db.tasks.map (fun x =>
             if x.id == input.id then applyTaskUpdate input now x else x) })

/-- Input of `updateShoppingItem` (schema.ts
`updateShoppingItemInputSchema`); same optional-field convention as
`UpdateTaskInput`. -/
structure UpdateShoppingItemInput where
  id : Nat
  name : Option String
  quantity : Option Nat
  comment : Option (Option String)
  is_purchased : Option Bool
deriving Repr, DecidableEq

/-- The dynamic update object of `updateShoppingItem`
(src/server/src/handlers/update_shopping_item.ts lines 63-92) applied to
one row: refreshes `updated_at`; copies present fields; when
`is_purchased` is present and true, sets `purchased_by` to the acting user
and `purchased_at` to now; when present and false, clears both to null. -/
def applyShoppingItemUpdate (input : UpdateShoppingItemInput)
    (userId now : Nat) (s : ShoppingItem) : ShoppingItem :=
  let s := { s with updated_at := now }
  let s := match input.name with | some v => { s with name := v } | none => s
  let s := match input.quantity with
    | some v => { s with quantity := v } | none => s
  let s := match input.comment with
    | some v => { s with comment := v } | none => s
  match input.is_purchased with
  | some b =>
    if b then
      { s with is_purchased := true, purchased_by := some userId,
               purchased_at := some now }
    else
      { s with is_purchased := false, purchased_by := none,
               purchased_at := none }
  | none => s

/-- Embedding of `updateShoppingItem`
(src/server/src/handlers/update_shopping_item.ts lines 61-110). -/
def updateShoppingItem (input : UpdateShoppingItemInput)
    (userId now : Nat) (db : DB) : Except String (ShoppingItem × DB) :=
  match db.shoppingItems.find? (fun s => s.id == input.id) with
  | none =>
    .error ("Shopping item with id " ++ toString input.id ++ " not found")
  | some s =>
    .ok (applyShoppingItemUpdate input userId now s,
         { db with shoppingItems := db.shoppingItems.map (fun x =>
             if x.id == input.id then applyShoppingItemUpdate input userId now x
             else x) })

/-- Embedding of `createShoppingList`
(src/server/src/handlers/create_shopping_list.ts lines 6-50): requires the
team to exist and the caller to hold an active membership for it, then
inserts the list with `created_by` set to the caller.  The source writes
`description: input.description || null`, so an empty string also becomes
null. -/
def createShoppingList (team_id : Nat) (name : String)
    (description : Option String) (userId now : Nat) (db : DB) :
    Except String (ShoppingList × DB) :=
  if (db.teams.filter (fun t => t.id == team_id)).isEmpty then
    .error ("Team with id " ++ toString team_id ++ " does not exist")
  else if (db.memberships.filter (fun m =>
      m.team_id == team_id && m.user_id == userId &&
      m.status == MembershipStatus.active)).isEmpty then
    .error ("User " ++ toString userId ++ " is not an active member of team "
            ++ toString team_id)
  else
    let row : ShoppingList :=
      { id := db.nextShoppingListId, team_id := team_id, name := name,
        description := match description with
          | some d => if d == "" then none else some d
          | none => none,
        created_by := userId, created_at := now, updated_at := now }
    .ok (row, { db with shoppingLists := db.shoppingLists ++ [row],
                        nextShoppingListId := db.nextShoppingListId + 1 })

/-- The left join of `teamsTable` with `teamMembershipsTable` on
`teams.id = memberships.team_id` used by `getUserTeams`
(src/server/src/handlers/get_user_teams.ts lines 9-21): each team yields one
row per matching membership, or a single row with no membership when none
matches. -/
def joinRows (ts : List Team) (ms : List TeamMembership) :
    List (Team × Option TeamMembership) :=
  match ts with
  | [] => []
  | t :: rest =>
    (if (ms.filter (fun m => m.team_id == t.id)).isEmpty then [(t, none)]
     else (ms.filter (fun m => m.team_id == t.id)).map (fun m => (t, some m)))
    ++ joinRows rest ms

/-- The `where` clause of `getUserTeams`
(src/server/src/handlers/get_user_teams.ts lines 22-32): team created by the
user, or joined membership row of the user with status active. -/
def rowMatches (userId : Nat) (row : Team × Option TeamMembership) : Bool :=
  row.1.created_by == userId ||
  (match row.2 with
   | some m => m.user_id == userId && m.status == MembershipStatus.active
   | none => false)

/-- The `Map`-based de-duplication of `getUserTeams`
(src/server/src/handlers/get_user_teams.ts lines 36-51): keeps the first
row of each id, in order. -/
def dedupById (l : List Team) (seen : List Nat) : List Team :=
  match l with
  | [] => []
  | t :: rest =>
    if t.id ∈ seen then dedupById rest seen
    else t :: dedupById rest (t.id :: seen)

/-- Embedding of `getUserTeams`
(src/server/src/handlers/get_user_teams.ts lines 6-56): left join, filter,
then de-duplicate by team id. -/
def getUserTeams (userId : Nat) (db : DB) : List Team :=
  dedupById (((joinRows db.teams db.memberships).filter
    (rowMatches userId)).map Prod.fst) []

/-- Descending insertion by `start_time`, rendering the SQL
`orderBy(desc(start_time))` of `getTeamCalendarEvents`. -/
def insertDesc (e : CalendarEvent) : List CalendarEvent → List CalendarEvent
  | [] => [e]
  | x :: xs =>
    if e.start_time ≤ x.start_time then x :: insertDesc e xs
    else e :: x :: xs

/-- Sort a list of events by descending `start_time`. -/
def sortDesc : List CalendarEvent → List CalendarEvent
  | [] => []
  | x :: xs => insertDesc x (sortDesc xs)

/-- The range filter of `getTeamCalendarEvents`
(src/server/src/handlers/get_team_calendar_events.ts lines 17-28): always
the team id; `start_time ≥ start_date` when a start date is given;
`end_time ≤ end_date` when an end date is given. -/
def eventInRange (team_id : Nat) (start_date end_date : Option Nat)
    (e : CalendarEvent) : Bool :=
  e.team_id == team_id &&
  (match start_date with | some d => d ≤ e.start_time | none => true) &&
  (match end_date with | some d => e.end_time ≤ d | none => true)

/-- Embedding of `getTeamCalendarEvents`
(src/server/src/handlers/get_team_calendar_events.ts lines 14-42): filter
by team and optional inclusive range, ordered by descending
`start_time`. -/
def getTeamCalendarEvents (team_id : Nat) (start_date end_date : Option Nat)
    (db : DB) : List CalendarEvent :=
  sortDesc (db.events.filter (eventInRange team_id start_date end_date))

/-- JS `x || null` on an optional nullable number, which is also the
`if (x)` truthiness guard: present, non-null and non-zero. -/
def jsTruthyNat : Option (Option Nat) → Option Nat
  | some (some v) => if v == 0 then none else some v
  | _ => none

/-- JS `x || null` on an optional nullable string: the empty string is
falsy and also becomes null. -/
def jsOrNullStr : Option (Option String) → Option String
  | some (some s) => if s == "" then none else some s
  | _ => none

/-- JS `x || null` on an optional nullable value that is never falsy
(Date objects and non-empty enum strings). -/
def jsFlat {α : Type} : Option (Option α) → Option α
  | some (some v) => some v
  | _ => none

/-- Input of `createTask` (schema.ts `createTaskInputSchema`); same
optional/nullable convention as the update inputs. -/
structure CreateTaskInput where
  todo_list_id : Nat
  title : String
  description : Option (Option String)
  priority : Option (Option TaskPriority)
  assigned_to : Option (Option Nat)
  due_date : Option (Option Nat)
deriving Repr, DecidableEq

/-- Embedding of `createTask` (src/server/src/handlers/create_task.ts
lines 6-51): requires the todo list to exist (naming its id); when
`assigned_to` passes the JS truthiness guard `if (input.assigned_to)`,
requires that user to exist (naming the id); then inserts the task with
status `todo`, `completed_at` null, `created_by` the caller, and the
`|| null` coalescing of the optional fields. -/
def createTask (input : CreateTaskInput) (userId now : Nat) (db : DB) :
    Except String (Task × DB) :=
  if (db.todoLists.filter (fun l => l.id == input.todo_list_id)).isEmpty then
    .error ("Todo list with ID " ++ toString input.todo_list_id ++
      " not found")
  else
    let row : Task :=
      { id := db.nextTaskId, todo_list_id := input.todo_list_id,
        title := input.title,
        description := jsOrNullStr input.description,
        priority := jsFlat input.priority,
        status := .todo,
        assigned_to := jsTruthyNat input.assigned_to,
        due_date := jsFlat input.due_date,
        completed_at := none, created_by := userId,
        created_at := now, updated_at := now }
    match jsTruthyNat input.assigned_to with
    | some a =>
      if (db.users.filter (fun x => x.id == a)).isEmpty then
        .error ("User with ID " ++ toString a ++ " not found")
      else
        .ok (row, { db with tasks := db.tasks ++ [row],
                            nextTaskId := db.nextTaskId + 1 })
    | none =>
      .ok (row, { db with tasks := db.tasks ++ [row],
                          nextTaskId := db.nextTaskId + 1 })

/-- Input of `createShoppingItem` (schema.ts
`createShoppingItemInputSchema`; the Zod default `quantity = 1` is already
applied). -/
structure CreateShoppingItemInput where
  shopping_list_id : Nat
  name : String
  quantity : Nat
  comment : Option (Option String)
deriving Repr, DecidableEq

/-- Embedding of `createShoppingItem`
(src/server/src/handlers/create_shopping_item.ts lines 6-35): requires the
shopping list to exist (naming its id), then inserts the item with the
store defaults (`is_purchased` false, purchase fields null). -/
def createShoppingItem (input : CreateShoppingItemInput) (userId now : Nat)
    (db : DB) : Except String (ShoppingItem × DB) :=
  if (db.shoppingLists.filter
      (fun l => l.id == input.shopping_list_id)).isEmpty then
    .error ("Shopping list with id " ++ toString input.shopping_list_id ++
      " not found")
  else
    let row : ShoppingItem :=
      { id := db.nextShoppingItemId,
        shopping_list_id := input.shopping_list_id,
        name := input.name, quantity := input.quantity,
        comment := jsOrNullStr input.comment,
        is_purchased := false, purchased_by := none, purchased_at := none,
        created_by := userId, created_at := now, updated_at := now }
    .ok (row, { db with shoppingItems := db.shoppingItems ++ [row],
                        nextShoppingItemId := db.nextShoppingItemId + 1 })

/-- Input of `createCalendarEvent` (schema.ts
`createCalendarEventInputSchema`; the Zod default `is_all_day = false` is
already applied). -/
structure CreateCalendarEventInput where
  team_id : Nat
  title : String
  description : Option (Option String)
  start_time : Nat
  end_time : Nat
  is_all_day : Bool
  location : Option (Option String)
deriving Repr, DecidableEq

/-- Embedding of `createCalendarEvent`
(src/server/src/handlers/create_calendar_event.ts lines 6-38): requires
the team to exist (naming its id), then inserts the event. -/
def createCalendarEvent (input : CreateCalendarEventInput)
    (userId now : Nat) (db : DB) : Except String (CalendarEvent × DB) :=
  if (db.teams.filter (fun t => t.id == input.team_id)).isEmpty then
    .error ("Team with id " ++ toString input.team_id ++ " not found")
  else
    let row : CalendarEvent :=
      { id := db.nextEventId, team_id := input.team_id,
        title := input.title,
        description := jsOrNullStr input.description,
        start_time := input.start_time, end_time := input.end_time,
        is_all_day := input.is_all_day,
        location := jsOrNullStr input.location,
        created_by := userId, created_at := now, updated_at := now }
    .ok (row, { db with events := db.events ++ [row] })

/-- Input of `updateFeature` (schema.ts `updateFeatureInputSchema`). -/
structure UpdateFeatureInput where
  id : Nat
  is_enabled_free : Option Bool
  is_enabled_paid : Option Bool
deriving Repr, DecidableEq

/-- The dynamic update object of `updateFeature`
(src/server/src/handlers/update_feature.ts lines 19-29) applied to one
row. -/
def applyFeatureUpdate (input : UpdateFeatureInput) (now : Nat)
    (f : Feature) : Feature :=
  let f := { f with updated_at := now }
  let f := match input.is_enabled_free with
    | some v => { f with is_enabled_free := v } | none => f
  match input.is_enabled_paid with
    | some v => { f with is_enabled_paid := v } | none => f

/-- Embedding of `updateFeature`
(src/server/src/handlers/update_feature.ts lines 6-43): the source's
existence check followed by `update ... returning` and `result[0]` is
rendered by a single lookup of the first row with the id; a missing id
fails naming the id. -/
def updateFeature (input : UpdateFeatureInput) (now : Nat) (db : DB) :
    Except String (Feature × DB) :=
  match db.features.find? (fun f => f.id == input.id) with
  | none => .error ("Feature with id " ++ toString input.id ++ " not found")
  | some f =>
    .ok (applyFeatureUpdate input now f,
         { db with features := db.features.map (fun x =>
             if x.id == input.id then applyFeatureUpdate input now x
             else x) })

/-- Input of `updateCalendarEvent` (schema.ts
`updateCalendarEventInputSchema`); same optional-field convention as
`UpdateTaskInput`. -/
structure UpdateCalendarEventInput where
  id : Nat
  title : Option String
  description : Option (Option String)
  start_time : Option Nat
  end_time : Option Nat
  is_all_day : Option Bool
  location : Option (Option String)
deriving Repr, DecidableEq

/-- The dynamic update object of `updateCalendarEvent`
(src/server/src/handlers/update_calendar_event.ts lines 28-54) applied to
one row. -/
def applyCalendarEventUpdate (input : UpdateCalendarEventInput) (now : Nat)
    (e : CalendarEvent) : CalendarEvent :=
  let e := { e with updated_at := now }
  let e := match input.title with | some v => { e with title := v } | none => e
  let e := match input.description with
    | some v => { e with description := v } | none => e
  let e := match input.start_time with
    | some v => { e with start_time := v } | none => e
  let e := match input.end_time with
    | some v => { e with end_time := v } | none => e
  let e := match input.is_all_day with
    | some v => { e with is_all_day := v } | none => e
  match input.location with
    | some v => { e with location := v } | none => e

/-- Embedding of `updateCalendarEvent`
(src/server/src/handlers/update_calendar_event.ts lines 25-72): applies
the dynamic update object to every row whose id matches; when no row
matched, fails naming the id; otherwise returns the updated row. -/
def updateCalendarEvent (input : UpdateCalendarEventInput) (now : Nat)
    (db : DB) : Except String (CalendarEvent × DB) :=
  match db.events.find? (fun e => e.id == input.id) with
  | none =>
    .error ("Calendar event with id " ++ toString input.id ++ " not found")
  | some e =>
    .ok (applyCalendarEventUpdate input now e,
         { db with events := db.events.map (fun x =>
             if x.id == input.id then applyCalendarEventUpdate input now x
             else x) })

/-- The mutating operations embedded above, as a single alphabet for the
store's transition system.  `insertUser` renders a direct
`db.insert(usersTable)` (as the repository's tests perform it; the real
`create_user` handler body is not among the sources) and only makes user
rows available to the membership handlers. -/
inductive Op where
  | insertUser (u : User)
  | createTeam (name : String) (description : Option String) (userId : Nat)
  | requestMembership (team_id userId : Nat)
  | approveMembership (membership_id approverId : Nat)
  | createShoppingList (team_id : Nat) (name : String)
      (description : Option String) (userId : Nat)
  | updateTask (input : UpdateTaskInput)
  | updateShoppingItem (input : UpdateShoppingItemInput) (userId : Nat)
  | createTask (input : CreateTaskInput) (userId : Nat)
  | createShoppingItem (input : CreateShoppingItemInput) (userId : Nat)
  | createCalendarEvent (input : CreateCalendarEventInput) (userId : Nat)
  | updateFeature (input : UpdateFeatureInput)
  | updateCalendarEvent (input : UpdateCalendarEventInput)

/-- One step of the store: run the operation's handler at clock `now`; a
handler failure leaves the store unchanged (the thrown error aborts the
request before any write). -/
def stepOp (op : Op) (now : Nat) (db : DB) : DB :=
  match op with
  | .insertUser u => { db with users := db.users ++ [u] }
  | .createTeam n d u => (createTeam n d u now db).2
  | .requestMembership tid u =>
    match requestTeamMembership tid u now db with
    | .ok r => r.2
    | .error _ => db
  | .approveMembership mid a =>
    match approveTeamMembership mid a now db with
    | .ok r => r.2
    | .error _ => db
  | .createShoppingList tid n d u =>
    match createShoppingList tid n d u now db with
    | .ok r => r.2
    | .error _ => db
  | .updateTask input =>
    match updateTask input now db with
    | .ok r => r.2
    | .error _ => db
  | .updateShoppingItem input u =>
    match updateShoppingItem input u now db with
    | .ok r => r.2
    | .error _ => db
  | .createTask input u =>
    match createTask input u now db with
    | .ok r => r.2
    | .error _ => db
  | .createShoppingItem input u =>
    match createShoppingItem input u now db with
    | .ok r => r.2
    | .error _ => db
  | .createCalendarEvent input u =>
    match createCalendarEvent input u now db with
    | .ok r => r.2
    | .error _ => db
  | .updateFeature input =>
    match updateFeature input now db with
    | .ok r => r.2
    | .error _ => db
  | .updateCalendarEvent input =>
    match updateCalendarEvent input now db with
    | .ok r => r.2
    | .error _ => db

/-- Store states reachable from the empty store by the embedded mutating
handlers. -/
inductive Reachable : DB → Prop where
  | init : Reachable DB.init
  | step (op : Op) (now : Nat) {db : DB} :
      Reachable db → Reachable (stepOp op now db)

/-- Decidable form of the invariant of claim C3: every team row has an
active membership row of its creator. -/
def teamsHaveCreatorMembership (db : DB) : Bool :=
  db.teams.all (fun t => db.memberships.any (fun m =>
    m.team_id == t.id && m.user_id == t.created_by &&
    m.status == MembershipStatus.active))

/-- `a` is a contiguous run of `b` (character lists). -/
def subRun (a b : List Char) : Bool :=
  match b with
  | [] => a.isEmpty
  | _ :: bs => a.isPrefixOf b || subRun a bs

/-- String containment: does `msg` mention `frag` verbatim? -/
def mentions (msg frag : String) : Bool :=
  subRun frag.toList msg.toList

lemma filter_isEmpty_true_iff {α : Type} (p : α → Bool) (l : List α) :
    (l.filter p).isEmpty = true ↔ ∀ a ∈ l, ¬ p a := by
  rw [List.isEmpty_iff, List.filter_eq_nil_iff]

lemma filter_isEmpty_false_iff {α : Type} (p : α → Bool) (l : List α) :
    (l.filter p).isEmpty = false ↔ ∃ a ∈ l, p a := by
  rw [Bool.eq_false_iff]
  simp [Ne, filter_isEmpty_true_iff]

/-- An active membership row of user `a` for team `tid` exists. -/
def hasActiveMembership (tid a : Nat) (db : DB) : Prop :=
  ∃ m ∈ db.memberships,
    m.team_id = tid ∧ m.user_id = a ∧ m.status = MembershipStatus.active

lemma filter_active_isEmpty_iff (tid a : Nat) (db : DB) :
    (db.memberships.filter (fun m =>
      m.team_id == tid && m.user_id == a &&
      m.status == MembershipStatus.active)).isEmpty = true ↔
    ¬ hasActiveMembership tid a db := by
  rw [List.isEmpty_iff, List.filter_eq_nil_iff]
  simp [hasActiveMembership]

/-- **C1.** `approveTeamMembership` fails with "Membership request not
found" when no membership row has the given id; fails with "Membership
request is not pending" when the first such row's status is not `pending`;
fails with "Approver must be an active member of the team" when the
approver holds no active membership row for the same team; and when all
three conditions hold it succeeds, returning the row with status set to
`active` and `joined_at` set to the current time, the store rewritten
accordingly.  The three error messages are pairwise distinct. -/
theorem C1_approveTeamMembership (mid a now : Nat) (db : DB) :
    (db.memberships.find? (fun m => m.id == mid) = none →
      approveTeamMembership mid a now db = .error "Membership request not found") ∧
    (∀ m, db.memberships.find? (fun x => x.id == mid) = some m →
      (m.status ≠ .pending →
        approveTeamMembership mid a now db =
          .error "Membership request is not pending") ∧
      (m.status = .pending → ¬ hasActiveMembership m.team_id a db →
        approveTeamMembership mid a now db =
          .error "Approver must be an active member of the team") ∧
      (m.status = .pending → hasActiveMembership m.team_id a db →
        approveTeamMembership mid a now db =
          .ok ({ m with status := .active, joined_at := some now },
               { db with memberships := db.memberships.map (fun x =>
                   if x.id == mid then
                     { x with status := .active, joined_at := some now }
                   else x) }))) ∧
    ("Membership request not found" ≠ "Membership request is not pending" ∧
     "Membership request not found" ≠
       "Approver must be an active member of the team" ∧
     "Membership request is not pending" ≠
       "Approver must be an active member of the team") := by
  refine ⟨?_, ?_, by decide⟩
  · intro h
    simp [approveTeamMembership, h]
  · intro m hm
    refine ⟨?_, ?_, ?_⟩
    · intro hst
      simp [approveTeamMembership, hm, hst]
    · intro hst hact
      rw [← filter_active_isEmpty_iff m.team_id a db] at hact
      simp [approveTeamMembership, hm, hst, hact]
    · intro hst hact
      have hne : (db.memberships.filter (fun x =>
          x.team_id == m.team_id && x.user_id == a &&
          x.status == MembershipStatus.active)).isEmpty = false := by
        cases hEmpty : (db.memberships.filter (fun x =>
            x.team_id == m.team_id && x.user_id == a &&
            x.status == MembershipStatus.active)).isEmpty
        · rfl
        · exact absurd ((filter_active_isEmpty_iff m.team_id a db).mp hEmpty)
            (not_not_intro hact)
      simp [approveTeamMembership, hm, hst, hne]

/-- The approver's active membership row used by the C1 witness store. -/
def mApprover : TeamMembership :=
  { id := 1, team_id := 5, user_id := 7, status := .active,
    joined_at := some 0, created_at := 0 }

/-- The pending membership row used by the C1 witness store. -/
def mPending : TeamMembership :=
  { id := 2, team_id := 5, user_id := 9, status := .pending,
    joined_at := none, created_at := 3 }

/-- The C1 witness store: one active approver row, one pending row. -/
def dbC1 : DB := { DB.init with memberships := [mApprover, mPending] }

/-- Witness for C1: in `dbC1`, membership 2 is pending and approver 7 is
active in team 5, so approval succeeds and activates the row. -/
theorem C1_witness :
    approveTeamMembership 2 7 4 dbC1 =
      .ok ({ mPending with status := .active, joined_at := some 4 },
           { dbC1 with memberships := [mApprover,
              { mPending with status := .active, joined_at := some 4 }] }) := by
  have h2 := ((C1_approveTeamMembership 2 7 4 dbC1).2.1 mPending
      (by decide)).2.2 (by decide)
    ⟨mApprover, by decide, by decide, by decide, by decide⟩
  rw [h2]
  rfl

/-- **C2.** `requestTeamMembership` fails with "Team not found" when no
team row has the given id; fails with "User not found" when the team
exists but no user row has the caller's id; fails with "User already has a
membership request or is already a member" when a membership row for the
(team, user) pair exists in any status; and otherwise succeeds, appending
exactly one new membership row with status `pending` and `joined_at` null
and returning it.  Every failure returns an error carrying no store, so no
membership row is created. -/
theorem C2_requestTeamMembership (tid u now : Nat) (db : DB) :
    ((∀ t ∈ db.teams, t.id ≠ tid) →
      requestTeamMembership tid u now db = .error "Team not found") ∧
    ((∃ t ∈ db.teams, t.id = tid) → (∀ x ∈ db.users, x.id ≠ u) →
      requestTeamMembership tid u now db = .error "User not found") ∧
    ((∃ t ∈ db.teams, t.id = tid) → (∃ x ∈ db.users, x.id = u) →
      (∃ m ∈ db.memberships, m.team_id = tid ∧ m.user_id = u) →
      requestTeamMembership tid u now db =
        .error "User already has a membership request or is already a member") ∧
    ((∃ t ∈ db.teams, t.id = tid) → (∃ x ∈ db.users, x.id = u) →
      (∀ m ∈ db.memberships, ¬(m.team_id = tid ∧ m.user_id = u)) →
      ∃ row : TeamMembership,
        requestTeamMembership tid u now db =
          .ok (row, { db with memberships := db.memberships ++ [row],
                              nextMembershipId := db.nextMembershipId + 1 }) ∧
        row.team_id = tid ∧ row.user_id = u ∧
        row.status = .pending ∧ row.joined_at = none) := by
  refine ⟨?_, ?_, ?_, ?_⟩
  · intro h
    have hT : (db.teams.filter (fun t => t.id == tid)).isEmpty = true := by
      rw [filter_isEmpty_true_iff]; simpa using h
    simp [requestTeamMembership, hT]
  · intro ht hu
    have hT : (db.teams.filter (fun t => t.id == tid)).isEmpty = false := by
      rw [filter_isEmpty_false_iff]; simpa using ht
    have hU : (db.users.filter (fun x => x.id == u)).isEmpty = true := by
      rw [filter_isEmpty_true_iff]; simpa using hu
    simp [requestTeamMembership, hT, hU]
  · intro ht hu hm
    have hT : (db.teams.filter (fun t => t.id == tid)).isEmpty = false := by
      rw [filter_isEmpty_false_iff]; simpa using ht
    have hU : (db.users.filter (fun x => x.id == u)).isEmpty = false := by
      rw [filter_isEmpty_false_iff]; simpa using hu
    have hM : (db.memberships.filter
        (fun m => m.team_id == tid && m.user_id == u)).isEmpty = false := by
      rw [filter_isEmpty_false_iff]
      obtain ⟨m, hmem, h1, h2⟩ := hm
      exact ⟨m, hmem, by simp [h1, h2]⟩
    simp [requestTeamMembership, hT, hU, hM]
  · intro ht hu hm
    have hT : (db.teams.filter (fun t => t.id == tid)).isEmpty = false := by
      rw [filter_isEmpty_false_iff]; simpa using ht
    have hU : (db.users.filter (fun x => x.id == u)).isEmpty = false := by
      rw [filter_isEmpty_false_iff]; simpa using hu
    have hM : (db.memberships.filter
        (fun m => m.team_id == tid && m.user_id == u)).isEmpty = true := by
      rw [filter_isEmpty_true_iff]
      intro m hmem
      simpa using hm m hmem
    refine ⟨{ id := db.nextMembershipId, team_id := tid, user_id := u,
              status := .pending, joined_at := none, created_at := now },
            ?_, rfl, rfl, rfl, rfl⟩
    simp [requestTeamMembership, hT, hU, hM]

/-- The C2 witness store: user 7, team 5 with no membership rows. -/
def dbC2 : DB :=
  { DB.init with
    users := [{ id := 7, email := "a@b.c", name := "A", tier := .free,
                status := .active, created_at := 0, updated_at := 0 }],
    teams := [{ id := 5, name := "T", description := none, created_by := 7,
                created_at := 0, updated_at := 0 }] }

/-- Witness for C2: in `dbC2`, user 7 can request membership of team 5 and
one pending row is appended. -/
theorem C2_witness :
    ∃ row : TeamMembership,
      requestTeamMembership 5 7 3 dbC2 =
        .ok (row, { dbC2 with memberships := dbC2.memberships ++ [row],
                              nextMembershipId := dbC2.nextMembershipId + 1 }) ∧
      row.team_id = 5 ∧ row.user_id = 7 ∧
      row.status = .pending ∧ row.joined_at = none :=
  (C2_requestTeamMembership 5 7 3 dbC2).2.2.2
    ⟨{ id := 5, name := "T", description := none, created_by := 7,
       created_at := 0, updated_at := 0 }, by decide, by decide⟩
    ⟨{ id := 7, email := "a@b.c", name := "A", tier := .free,
       status := .active, created_at := 0, updated_at := 0 }, by decide, by decide⟩
    (by decide)

/-- **C8.** `createShoppingList` fails (naming the team id) when the team
does not exist; fails (naming user and team) when the caller holds no
membership row for that team with status `active`; and when both checks
pass it inserts exactly one new shopping-list row with `created_by` set to
the caller and returns it. -/
theorem C8_createShoppingList (tid : Nat) (name : String)
    (d : Option String) (u now : Nat) (db : DB) :
    ((∀ t ∈ db.teams, t.id ≠ tid) →
      createShoppingList tid name d u now db =
        .error ("Team with id " ++ toString tid ++ " does not exist")) ∧
    ((∃ t ∈ db.teams, t.id = tid) → ¬ hasActiveMembership tid u db →
      createShoppingList tid name d u now db =
        .error ("User " ++ toString u ++ " is not an active member of team "
                ++ toString tid)) ∧
    ((∃ t ∈ db.teams, t.id = tid) → hasActiveMembership tid u db →
      ∃ row : ShoppingList,
        createShoppingList tid name d u now db =
          .ok (row, { db with shoppingLists := db.shoppingLists ++ [row],
                              nextShoppingListId := db.nextShoppingListId + 1 }) ∧
        row.team_id = tid ∧ row.created_by = u) := by
  refine ⟨?_, ?_, ?_⟩
  · intro h
    have hT : (db.teams.filter (fun t => t.id == tid)).isEmpty = true := by
      rw [filter_isEmpty_true_iff]; simpa using h
    simp [createShoppingList, hT]
  · intro ht hact
    have hT : (db.teams.filter (fun t => t.id == tid)).isEmpty = false := by
      rw [filter_isEmpty_false_iff]; simpa using ht
    rw [← filter_active_isEmpty_iff tid u db] at hact
    simp [createShoppingList, hT, hact]
  · intro ht hact
    have hT : (db.teams.filter (fun t => t.id == tid)).isEmpty = false := by
      rw [filter_isEmpty_false_iff]; simpa using ht
    have hA : (db.memberships.filter (fun m =>
        m.team_id == tid && m.user_id == u &&
        m.status == MembershipStatus.active)).isEmpty = false := by
      rw [filter_isEmpty_false_iff]
      obtain ⟨m, hmem, h1, h2, h3⟩ := hact
      exact ⟨m, hmem, by simp [h1, h2, h3]⟩
    refine ⟨{ id := db.nextShoppingListId, team_id := tid, name := name,
              description := match d with
                | some s => if s == "" then none else some s
                | none => none,
              created_by := u, created_at := now, updated_at := now },
            ?_, rfl, rfl⟩
    simp [createShoppingList, hT, hA]

/-- The C8 witness store: team 5 whose creator 7 holds an active
membership row. -/
def dbC8 : DB :=
  { DB.init with
    teams := [{ id := 5, name := "T", description := none, created_by := 7,
                created_at := 0, updated_at := 0 }],
    memberships := [mApprover] }

/-- Witness for C8: active member 7 of team 5 creates a shopping list. -/
theorem C8_witness :
    ∃ row : ShoppingList,
      createShoppingList 5 "Groceries" none 7 4 dbC8 =
        .ok (row, { dbC8 with shoppingLists := dbC8.shoppingLists ++ [row],
                              nextShoppingListId := dbC8.nextShoppingListId + 1 }) ∧
      row.team_id = 5 ∧ row.created_by = 7 :=
  (C8_createShoppingList 5 "Groceries" none 7 4 dbC8).2.2
    ⟨{ id := 5, name := "T", description := none, created_by := 7,
       created_at := 0, updated_at := 0 }, by decide, by decide⟩
    ⟨mApprover, by decide, by decide, by decide, by decide⟩

/-- **C4.** `updateTask` fails, naming the id, when no task row has the
given id.  Otherwise it returns the row updated by partial-update
semantics: every field absent from the input keeps its stored value,
`updated_at` is always set to the current time, and whenever the input
contains `status` the row's `completed_at` is resynchronized — to the
current time when the new status is `completed`, to null for any other
status — while an input without `status` leaves `completed_at`
untouched. -/
theorem C4_updateTask (input : UpdateTaskInput) (now : Nat) (db : DB) :
    ((∀ t ∈ db.tasks, t.id ≠ input.id) →
      updateTask input now db =
        .error ("Task with id " ++ toString input.id ++ " not found")) ∧
    (∀ t, db.tasks.find? (fun x => x.id == input.id) = some t →
      ∃ db', updateTask input now db = .ok (applyTaskUpdate input now t, db') ∧
        db' = { db with tasks := db.tasks.map (fun x =>
          if x.id == input.id then applyTaskUpdate input now x else x) }) ∧
    (∀ t, let r := applyTaskUpdate input now t
      r.updated_at = now ∧
      r.id = t.id ∧ r.todo_list_id = t.todo_list_id ∧
      r.created_by = t.created_by ∧ r.created_at = t.created_at ∧
      (input.title = none → r.title = t.title) ∧
      (input.description = none → r.description = t.description) ∧
      (input.priority = none → r.priority = t.priority) ∧
      (input.assigned_to = none → r.assigned_to = t.assigned_to) ∧
      (input.due_date = none → r.due_date = t.due_date) ∧
      (input.status = none → r.status = t.status ∧
        r.completed_at = t.completed_at) ∧
      (∀ v, input.title = some v → r.title = v) ∧
      (∀ v, input.description = some v → r.description = v) ∧
      (∀ v, input.priority = some v → r.priority = v) ∧
      (∀ v, input.assigned_to = some v → r.assigned_to = v) ∧
      (∀ v, input.due_date = some v → r.due_date = v) ∧
      (∀ s, input.status = some s → r.status = s ∧
        r.completed_at =
          (if s = TaskStatus.completed then some now else none))) := by
  refine ⟨?_, ?_, ?_⟩
  · intro h
    have hF : db.tasks.find? (fun x => x.id == input.id) = none := by
      rw [List.find?_eq_none]
      intro t ht
      simpa using h t ht
    simp [updateTask, hF]
  · intro t ht
    exact ⟨_, by simp [updateTask, ht], rfl⟩
  · intro t
    obtain ⟨id, title, description, priority, status, assigned_to, due_date⟩ :=
      input
    cases title <;> cases description <;> cases priority <;> cases status <;>
      cases assigned_to <;> cases due_date <;>
      simp [applyTaskUpdate]

/-- A stored task row, completed, used by the C4 and C5 witnesses. -/
def taskRow : Task :=
  { id := 3, todo_list_id := 1, title := "write spec", description := none,
    priority := some .P1, status := .completed, assigned_to := some 7,
    due_date := none, completed_at := some 2, created_by := 7,
    created_at := 1, updated_at := 2 }

/-- The C4 witness store: exactly one task row. -/
def dbC4 : DB := { DB.init with tasks := [taskRow] }

/-- The C4 witness input: only `id` and `status := todo` are present. -/
def inputC4 : UpdateTaskInput :=
  { id := 3, title := none, description := none, priority := none,
    status := some .todo, assigned_to := none, due_date := none }

/-- Witness for C4: reverting the completed task 3 to `todo` clears
`completed_at` to null, keeps the absent fields, and refreshes
`updated_at`. -/
theorem C4_witness :
    (∃ db', updateTask inputC4 9 dbC4 =
      .ok (applyTaskUpdate inputC4 9 taskRow, db') ∧
      db' = { dbC4 with tasks := dbC4.tasks.map (fun x =>
        if x.id == inputC4.id then applyTaskUpdate inputC4 9 x else x) }) ∧
    (applyTaskUpdate inputC4 9 taskRow).completed_at = none ∧
    (applyTaskUpdate inputC4 9 taskRow).title = taskRow.title ∧
    (applyTaskUpdate inputC4 9 taskRow).updated_at = 9 := by
  have h := C4_updateTask inputC4 9 dbC4
  have hok := h.2.1 taskRow (by decide)
  have hfields := h.2.2 taskRow
  exact ⟨hok, by simpa using (hfields.2.2.2.2.2.2.2.2.2.2.2.2.2.2.2.2
      TaskStatus.todo rfl).2,
    hfields.2.2.2.2.2.1 rfl, hfields.1⟩

/-- **C5.** `updateShoppingItem` with `is_purchased = true` in the input
sets `purchased_by` to the acting user and `purchased_at` to the (non-null)
current time; with `is_purchased = false` it clears both to null; and when
`is_purchased` is absent from the input, `is_purchased`, `purchased_by`
and `purchased_at` all keep their stored values — whatever they are — even
while other fields such as `name` or `quantity` are updated. -/
theorem C5_updateShoppingItem (input : UpdateShoppingItemInput)
    (userId now : Nat) (db : DB) :
    (∀ s, db.shoppingItems.find? (fun x => x.id == input.id) = some s →
      ∃ db', updateShoppingItem input userId now db =
        .ok (applyShoppingItemUpdate input userId now s, db')) ∧
    (∀ s, let r := applyShoppingItemUpdate input userId now s
      (input.is_purchased = some true →
        r.is_purchased = true ∧ r.purchased_by = some userId ∧
        r.purchased_at = some now) ∧
      (input.is_purchased = some false →
        r.is_purchased = false ∧ r.purchased_by = none ∧
        r.purchased_at = none) ∧
      (input.is_purchased = none →
        r.is_purchased = s.is_purchased ∧ r.purchased_by = s.purchased_by ∧
        r.purchased_at = s.purchased_at) ∧
      (input.name = none → r.name = s.name) ∧
      (input.quantity = none → r.quantity = s.quantity) ∧
      (input.comment = none → r.comment = s.comment) ∧
      (∀ v, input.name = some v → r.name = v) ∧
      (∀ v, input.quantity = some v → r.quantity = v) ∧
      (∀ v, input.comment = some v → r.comment = v) ∧
      r.updated_at = now) := by
  refine ⟨?_, ?_⟩
  · intro s hs
    exact ⟨{ db with shoppingItems := db.shoppingItems.map (fun x =>
        if x.id == input.id then applyShoppingItemUpdate input userId now x
        else x) }, by simp [updateShoppingItem, hs]⟩
  · intro s
    obtain ⟨id, name, quantity, comment, is_purchased⟩ := input
    cases name <;> cases quantity <;> cases comment <;>
      rcases is_purchased with _ | _ | _ <;>
      simp [applyShoppingItemUpdate]

/-- The C5 witness store: one purchased shopping-item row. -/
def dbC5 : DB :=
  { DB.init with shoppingItems :=
    [{ id := 4, shopping_list_id := 1, name := "milk", quantity := 1,
       comment := none, is_purchased := true, purchased_by := some 7,
       purchased_at := some 2, created_by := 7, created_at := 1,
       updated_at := 2 }] }

/-- The C5 witness input: only `name` is updated. -/
def inputC5 : UpdateShoppingItemInput :=
  { id := 4, name := some "oat milk", quantity := none, comment := none,
    is_purchased := none }

/-- Witness for C5: renaming the already-purchased item 4 changes `name`
but leaves `is_purchased`, `purchased_by` and `purchased_at` exactly as
stored. -/
theorem C5_witness :
    (∃ db', updateShoppingItem inputC5 9 11 dbC5 =
      .ok (applyShoppingItemUpdate inputC5 9 11
             (dbC5.shoppingItems.head (by decide)), db')) ∧
    (applyShoppingItemUpdate inputC5 9 11
        (dbC5.shoppingItems.head (by decide))).is_purchased = true ∧
    (applyShoppingItemUpdate inputC5 9 11
        (dbC5.shoppingItems.head (by decide))).purchased_by = some 7 ∧
    (applyShoppingItemUpdate inputC5 9 11
        (dbC5.shoppingItems.head (by decide))).purchased_at = some 2 ∧
    (applyShoppingItemUpdate inputC5 9 11
        (dbC5.shoppingItems.head (by decide))).name = "oat milk" := by
  have h := C5_updateShoppingItem inputC5 9 11 dbC5
  have hok := h.1 (dbC5.shoppingItems.head (by decide)) (by decide)
  have hf := h.2 (dbC5.shoppingItems.head (by decide))
  have hkeep := hf.2.2.1 rfl
  refine ⟨hok, ?_, ?_, ?_, hf.2.2.2.2.2.2.1 "oat milk" rfl⟩
  · exact hkeep.1.trans (by decide)
  · exact hkeep.2.1.trans (by decide)
  · exact hkeep.2.2.trans (by decide)

lemma mem_insertDesc (e x : CalendarEvent) (l : List CalendarEvent) :
    x ∈ insertDesc e l ↔ x = e ∨ x ∈ l := by
  induction l with
  | nil => simp [insertDesc]
  | cons a l ih =>
    by_cases h : e.start_time ≤ a.start_time
    · simp only [insertDesc, if_pos h, List.mem_cons, ih]
      tauto
    · simp only [insertDesc, if_neg h, List.mem_cons]

lemma pairwise_insertDesc (e : CalendarEvent) (l : List CalendarEvent)
    (h : List.Pairwise (fun a b => b.start_time ≤ a.start_time) l) :
    List.Pairwise (fun a b => b.start_time ≤ a.start_time)
      (insertDesc e l) := by
  induction l with
  | nil => simp [insertDesc]
  | cons a l ih =>
    rcases List.pairwise_cons.mp h with ⟨ha, hl⟩
    by_cases hc : e.start_time ≤ a.start_time
    · rw [insertDesc, if_pos hc]
      refine List.pairwise_cons.mpr ⟨?_, ih hl⟩
      intro y hy
      rcases (mem_insertDesc e y l).mp hy with rfl | hy
      · exact hc
      · exact ha y hy
    · rw [insertDesc, if_neg hc]
      refine List.pairwise_cons.mpr ⟨?_, h⟩
      intro y hy
      rcases List.mem_cons.mp hy with rfl | hy
      · exact le_of_not_le hc
      · exact le_trans (ha y hy) (le_of_not_le hc)

lemma mem_sortDesc (x : CalendarEvent) (l : List CalendarEvent) :
    x ∈ sortDesc l ↔ x ∈ l := by
  induction l with
  | nil => simp [sortDesc]
  | cons a l ih => simp [sortDesc, mem_insertDesc, ih]

lemma pairwise_sortDesc (l : List CalendarEvent) :
    List.Pairwise (fun a b => b.start_time ≤ a.start_time) (sortDesc l) := by
  induction l with
  | nil => simp [sortDesc]
  | cons a l ih => exact pairwise_insertDesc a (sortDesc l) ih

/-- **C7.** `getTeamCalendarEvents` returns exactly the team's events
passing the inclusive range filter — `start_time ≥ start_date` when a
start date is given, `end_time ≤ end_date` when an end date is given,
both when both are given — and every adjacent pair of the result is in
descending `start_time` order. -/
theorem C7_getTeamCalendarEvents (tid : Nat) (sd ed : Option Nat)
    (db : DB) :
    (∀ e, e ∈ getTeamCalendarEvents tid sd ed db ↔
      (e ∈ db.events ∧ e.team_id = tid ∧
       (∀ d, sd = some d → d ≤ e.start_time) ∧
       (∀ d, ed = some d → e.end_time ≤ d))) ∧
    List.Pairwise (fun a b => b.start_time ≤ a.start_time)
      (getTeamCalendarEvents tid sd ed db) := by
  constructor
  · intro e
    rw [getTeamCalendarEvents, mem_sortDesc, List.mem_filter]
    cases sd <;> cases ed <;> simp [eventInRange, and_assoc]
  · exact pairwise_sortDesc _

/-- Two event rows of team 5 used by the C7 witness. -/
def evA : CalendarEvent :=
  { id := 1, team_id := 5, title := "standup", description := none,
    start_time := 10, end_time := 11, is_all_day := false,
    location := none, created_by := 7, created_at := 0, updated_at := 0 }

/-- A later event row of team 5 used by the C7 witness. -/
def evB : CalendarEvent :=
  { id := 2, team_id := 5, title := "retro", description := none,
    start_time := 20, end_time := 25, is_all_day := false,
    location := none, created_by := 7, created_at := 0, updated_at := 0 }

/-- The C7 witness store: two events of team 5. -/
def dbC7 : DB := { DB.init with events := [evA, evB] }

/-- Team `t` is listed for user `u`: the user created it or holds an
active membership row for it. -/
def qualifies (u : Nat) (ms : List TeamMembership) (t : Team) : Prop :=
  t.created_by = u ∨ ∃ m ∈ ms,
    m.team_id = t.id ∧ m.user_id = u ∧ m.status = MembershipStatus.active

lemma mem_filterJoin (u : Nat) (ts : List Team) (ms : List TeamMembership)
    (x : Team) :
    x ∈ ((joinRows ts ms).filter (rowMatches u)).map Prod.fst ↔
      x ∈ ts ∧ qualifies u ms x := by
  induction ts with
  | nil => simp [joinRows]
  | cons t rest ih =>
    rw [joinRows]
    rw [List.filter_append, List.map_append, List.mem_append, ih]
    have hblock :
        x ∈ ((if (ms.filter (fun m => m.team_id == t.id)).isEmpty then
                [(t, (none : Option TeamMembership))]
              else (ms.filter (fun m => m.team_id == t.id)).map
                (fun m => (t, some m))).filter
            (rowMatches u)).map Prod.fst ↔
          x = t ∧ qualifies u ms t := by
      cases hE : (ms.filter (fun m => m.team_id == t.id)).isEmpty with
      | true =>
        have hno : ¬ ∃ m ∈ ms, m.team_id = t.id ∧ m.user_id = u ∧
            m.status = MembershipStatus.active := by
          rintro ⟨m, hm, h1, _, _⟩
          have := (filter_isEmpty_true_iff _ ms).mp hE m hm
          simp [h1] at this
        rw [if_pos rfl]
        simp only [qualifies]
        by_cases hc : t.created_by = u
        · simp [rowMatches, hc]
        · simp [rowMatches, hc]
          intro hx
          exact fun m hm h1 h2 h3 => hno ⟨m, hm, h1, h2, h3⟩
      | false =>
        rw [if_neg (by simp)]
        rw [List.mem_map]
        simp only [qualifies]
        constructor
        · rintro ⟨row, hrow, rfl⟩
          rcases List.mem_filter.mp hrow with ⟨hrow_mem, hmatch⟩
          rcases List.mem_map.mp hrow_mem with ⟨m, hm_tms, rfl⟩
          rcases List.mem_filter.mp hm_tms with ⟨hm_ms, hm_tid⟩
          refine ⟨rfl, ?_⟩
          simp only [rowMatches, Bool.or_eq_true, beq_iff_eq,
            Bool.and_eq_true] at hmatch
          rcases hmatch with h | ⟨h1, h2⟩
          · exact Or.inl h
          · exact Or.inr ⟨m, hm_ms, by simpa using hm_tid, h1,
              by simpa using h2⟩
        · rintro ⟨rfl, hq⟩
          rcases hq with hc | ⟨m, hmms, h1, h2, h3⟩
          · have hne : ms.filter (fun m => m.team_id == x.id) ≠ [] := by
              intro h
              rw [h] at hE
              simp at hE
            obtain ⟨m₀, hm₀⟩ := List.exists_mem_of_ne_nil _ hne
            exact ⟨(x, some m₀), List.mem_filter.mpr
              ⟨List.mem_map.mpr ⟨m₀, hm₀, rfl⟩,
               by simp [rowMatches, hc]⟩, rfl⟩
          · exact ⟨(x, some m), List.mem_filter.mpr
              ⟨List.mem_map.mpr ⟨m, List.mem_filter.mpr
                  ⟨hmms, by simp [h1]⟩, rfl⟩,
               by simp [rowMatches, h2, h3]⟩, rfl⟩
    rw [hblock]
    constructor
    · rintro (⟨rfl, hq⟩ | ⟨hmem, hq⟩)
      · exact ⟨List.mem_cons_self _ _, hq⟩
      · exact ⟨List.mem_cons_of_mem _ hmem, hq⟩
    · rintro ⟨hmem, hq⟩
      rcases List.mem_cons.mp hmem with rfl | hmem
      · exact Or.inl ⟨rfl, hq⟩
      · exact Or.inr ⟨hmem, hq⟩

lemma mem_dedupById (l : List Team) (seen : List Nat) (x : Team)
    (hinj : ∀ a ∈ l, ∀ b ∈ l, a.id = b.id → a = b) :
    x ∈ dedupById l seen ↔ x ∈ l ∧ x.id ∉ seen := by
  induction l generalizing seen with
  | nil => simp [dedupById]
  | cons t rest ih =>
    have hinj' : ∀ a ∈ rest, ∀ b ∈ rest, a.id = b.id → a = b := by
      intro a ha b hb
      exact hinj a (List.mem_cons_of_mem _ ha) b (List.mem_cons_of_mem _ hb)
    by_cases hs : t.id ∈ seen
    · rw [dedupById, if_pos hs, ih _ hinj']
      constructor
      · rintro ⟨hx, hns⟩
        exact ⟨List.mem_cons_of_mem _ hx, hns⟩
      · rintro ⟨hx, hns⟩
        rcases List.mem_cons.mp hx with rfl | hx
        · exact absurd hs hns
        · exact ⟨hx, hns⟩
    · rw [dedupById, if_neg hs]
      rw [List.mem_cons, ih _ hinj']
      constructor
      · rintro (rfl | ⟨hx, hns⟩)
        · exact ⟨List.mem_cons_self _ _, hs⟩
        · refine ⟨List.mem_cons_of_mem _ hx, fun hc => hns ?_⟩
          exact List.mem_cons_of_mem _ hc
      · rintro ⟨hx, hns⟩
        rcases List.mem_cons.mp hx with rfl | hx
        · exact Or.inl rfl
        · by_cases heq : x.id = t.id
          · exact Or.inl (hinj x (List.mem_cons_of_mem _ hx) t
              (List.mem_cons_self _ _) heq)
          · exact Or.inr ⟨hx, by simp [List.mem_cons, heq, hns]⟩

lemma dedupById_nodup (l : List Team) (seen : List Nat) :
    ((dedupById l seen).map (fun t => t.id)).Nodup ∧
    ∀ x ∈ dedupById l seen, x.id ∉ seen := by
  induction l generalizing seen with
  | nil => simp [dedupById]
  | cons t rest ih =>
    by_cases hs : t.id ∈ seen
    · rw [dedupById, if_pos hs]
      exact ih seen
    · rw [dedupById, if_neg hs]
      obtain ⟨hnd, hout⟩ := ih (t.id :: seen)
      refine ⟨?_, ?_⟩
      · rw [List.map_cons, List.nodup_cons]
        refine ⟨fun hc => ?_, hnd⟩
        rcases List.mem_map.mp hc with ⟨y, hy, hyid⟩
        exact hout y hy (hyid ▸ List.mem_cons_self _ _)
      · intro x hx
        rcases List.mem_cons.mp hx with rfl | hx
        · exact hs
        · intro hc
          exact hout x hx (List.mem_cons_of_mem _ hc)

/-- **C6.** When team ids are unique (the primary key of `teamsTable`),
`getUserTeams u` returns exactly the teams `t` with `t.created_by = u` or
an active membership row `(t.id, u)`, pending and rejected memberships
granting nothing, and the returned list repeats no team id — even when `u`
is both creator and explicit active member of the same team. -/
theorem C6_getUserTeams (u : Nat) (db : DB)
    (hids : (db.teams.map (fun t => t.id)).Nodup) :
    (∀ t, t ∈ getUserTeams u db ↔
      (t ∈ db.teams ∧ (t.created_by = u ∨ ∃ m ∈ db.memberships,
        m.team_id = t.id ∧ m.user_id = u ∧
        m.status = MembershipStatus.active))) ∧
    ((getUserTeams u db).map (fun t => t.id)).Nodup := by
  have hinj : ∀ a ∈ ((joinRows db.teams db.memberships).filter
      (rowMatches u)).map Prod.fst,
      ∀ b ∈ ((joinRows db.teams db.memberships).filter
      (rowMatches u)).map Prod.fst, a.id = b.id → a = b := by
    intro a ha b hb heq
    have ha' := ((mem_filterJoin u db.teams db.memberships a).mp ha).1
    have hb' := ((mem_filterJoin u db.teams db.memberships b).mp hb).1
    exact List.inj_on_of_nodup_map hids ha' hb' heq
  constructor
  · intro t
    rw [getUserTeams, mem_dedupById _ _ _ hinj, mem_filterJoin]
    simp [qualifies]
  · exact (dedupById_nodup _ _).1

/-- The C6 witness store: user 7 created team 5 and also holds an explicit
active membership row for it. -/
def dbC6 : DB :=
  { DB.init with
    teams := [{ id := 5, name := "T", description := none, created_by := 7,
                created_at := 0, updated_at := 0 }],
    memberships := [mApprover] }

/-- Witness for C6: the doubly-qualified team is listed, and no team id
repeats in the result. -/
theorem C6_witness :
    (∀ t, t ∈ getUserTeams 7 dbC6 ↔
      (t ∈ dbC6.teams ∧ (t.created_by = 7 ∨ ∃ m ∈ dbC6.memberships,
        m.team_id = t.id ∧ m.user_id = 7 ∧
        m.status = MembershipStatus.active))) ∧
    ((getUserTeams 7 dbC6).map (fun t => t.id)).Nodup :=
  C6_getUserTeams 7 dbC6 (by decide)

/-- **C10.** For a user id that created no team and holds no active
membership row — including ids of users that do not exist at all, since
the handler never looks at `usersTable` — `getUserTeams` returns the empty
list (its type has no error outcome, so a nonexistent caller is not
distinguished from a member of no team). -/
theorem C10_getUserTeams_empty (u : Nat) (db : DB)
    (h1 : ∀ t ∈ db.teams, t.created_by ≠ u)
    (h2 : ∀ m ∈ db.memberships,
      ¬(m.user_id = u ∧ m.status = MembershipStatus.active)) :
    getUserTeams u db = [] := by
  have hL : ((joinRows db.teams db.memberships).filter
      (rowMatches u)).map Prod.fst = [] := by
    rw [List.eq_nil_iff_forall_not_mem]
    intro t ht
    rcases (mem_filterJoin u db.teams db.memberships t).mp ht with ⟨htm, hq⟩
    rcases hq with hc | ⟨m, hm, _, h4, h5⟩
    · exact h1 t htm hc
    · exact h2 m hm ⟨h4, h5⟩
  rw [getUserTeams, hL]
  rfl

/-- The C10 witness store: a team of creator 7 with a pending membership
row of user 9; id 42 belongs to no user row at all. -/
def dbC10 : DB :=
  { DB.init with
    teams := [{ id := 5, name := "T", description := none, created_by := 7,
                created_at := 0, updated_at := 0 }],
    memberships := [{ id := 1, team_id := 5, user_id := 9,
                      status := .pending, joined_at := none,
                      created_at := 0 }] }

/-- Witness for C10: the nonexistent user 42 gets the empty list. -/
theorem C10_witness : getUserTeams 42 dbC10 = [] :=
  C10_getUserTeams_empty 42 dbC10 (by decide) (by decide)

lemma requestTeamMembership_ok_shape (tid u now : Nat) (db : DB)
    (r : TeamMembership × DB)
    (h : requestTeamMembership tid u now db = .ok r) :
    r.2.teams = db.teams ∧ r.2.memberships = db.memberships ++ [r.1] := by
  unfold requestTeamMembership at h
  split at h
  · simp at h
  · split at h
    · simp at h
    · split at h
      · simp at h
      · cases h
        exact ⟨rfl, rfl⟩

lemma approveTeamMembership_ok_shape (mid a now : Nat) (db : DB)
    (r : TeamMembership × DB)
    (h : approveTeamMembership mid a now db = .ok r) :
    r.2.teams = db.teams ∧
    r.2.memberships = db.memberships.map (fun m =>
      if m.id == mid then { m with status := .active, joined_at := some now }
      else m) := by
  cases hf : db.memberships.find? (fun m => m.id == mid) with
  | none => simp [approveTeamMembership, hf] at h
  | some mb =>
    by_cases hst : mb.status ≠ .pending
    · simp [approveTeamMembership, hf, hst] at h
    · cases hE : (db.memberships.filter (fun m =>
          m.team_id == mb.team_id && m.user_id == a &&
          m.status == MembershipStatus.active)).isEmpty with
      | true => simp [approveTeamMembership, hf, hst, hE] at h
      | false =>
        simp [approveTeamMembership, hf, hst, hE] at h
        rw [← h]
        exact ⟨rfl, by simp⟩

lemma createShoppingList_ok_shape (tid : Nat) (nm : String)
    (d : Option String) (u now : Nat) (db : DB) (r : ShoppingList × DB)
    (h : createShoppingList tid nm d u now db = .ok r) :
    r.2.teams = db.teams ∧ r.2.memberships = db.memberships := by
  unfold createShoppingList at h
  split at h
  · simp at h
  · split at h
    · simp at h
    · cases h
      exact ⟨rfl, rfl⟩

lemma updateTask_ok_shape (input : UpdateTaskInput) (now : Nat) (db : DB)
    (r : Task × DB) (h : updateTask input now db = .ok r) :
    r.2.teams = db.teams ∧ r.2.memberships = db.memberships := by
  unfold updateTask at h
  cases hf : db.tasks.find? (fun t => t.id == input.id) with
  | none => rw [hf] at h; simp at h
  | some t =>
    rw [hf] at h
    cases h
    exact ⟨rfl, rfl⟩

lemma updateShoppingItem_ok_shape (input : UpdateShoppingItemInput)
    (u now : Nat) (db : DB) (r : ShoppingItem × DB)
    (h : updateShoppingItem input u now db = .ok r) :
    r.2.teams = db.teams ∧ r.2.memberships = db.memberships := by
  unfold updateShoppingItem at h
  cases hf : db.shoppingItems.find? (fun s => s.id == input.id) with
  | none => rw [hf] at h; simp at h
  | some s =>
    rw [hf] at h
    cases h
    exact ⟨rfl, rfl⟩

lemma createTask_ok_shape (input : CreateTaskInput) (u now : Nat)
    (db : DB) (r : Task × DB) (h : createTask input u now db = .ok r) :
    r.2.teams = db.teams ∧ r.2.memberships = db.memberships := by
  cases h1 : (db.todoLists.filter
      (fun l => l.id == input.todo_list_id)).isEmpty with
  | true => simp [createTask, h1] at h
  | false =>
    cases htn : jsTruthyNat input.assigned_to with
    | none =>
      simp [createTask, h1, htn] at h
      rw [← h]
      exact ⟨rfl, rfl⟩
    | some a =>
      cases h2 : (db.users.filter (fun x => x.id == a)).isEmpty with
      | true => simp [createTask, h1, htn, h2] at h
      | false =>
        simp [createTask, h1, htn, h2] at h
        rw [← h]
        exact ⟨rfl, rfl⟩

lemma createShoppingItem_ok_shape (input : CreateShoppingItemInput)
    (u now : Nat) (db : DB) (r : ShoppingItem × DB)
    (h : createShoppingItem input u now db = .ok r) :
    r.2.teams = db.teams ∧ r.2.memberships = db.memberships := by
  unfold createShoppingItem at h
  split at h
  · simp at h
  · cases h
    exact ⟨rfl, rfl⟩

lemma createCalendarEvent_ok_shape (input : CreateCalendarEventInput)
    (u now : Nat) (db : DB) (r : CalendarEvent × DB)
    (h : createCalendarEvent input u now db = .ok r) :
    r.2.teams = db.teams ∧ r.2.memberships = db.memberships := by
  unfold createCalendarEvent at h
  split at h
  · simp at h
  · cases h
    exact ⟨rfl, rfl⟩

lemma updateFeature_ok_shape (input : UpdateFeatureInput) (now : Nat)
    (db : DB) (r : Feature × DB) (h : updateFeature input now db = .ok r) :
    r.2.teams = db.teams ∧ r.2.memberships = db.memberships := by
  unfold updateFeature at h
  cases hf : db.features.find? (fun f => f.id == input.id) with
  | none => rw [hf] at h; simp at h
  | some f =>
    rw [hf] at h
    cases h
    exact ⟨rfl, rfl⟩

lemma updateCalendarEvent_ok_shape (input : UpdateCalendarEventInput)
    (now : Nat) (db : DB) (r : CalendarEvent × DB)
    (h : updateCalendarEvent input now db = .ok r) :
    r.2.teams = db.teams ∧ r.2.memberships = db.memberships := by
  unfold updateCalendarEvent at h
  cases hf : db.events.find? (fun e => e.id == input.id) with
  | none => rw [hf] at h; simp at h
  | some e =>
    rw [hf] at h
    cases h
    exact ⟨rfl, rfl⟩

/-- The creator-membership witness survives appending membership rows. -/
lemma inv_memberships_append (teams : List Team)
    (ms extra : List TeamMembership)
    (h : teams.all (fun t => ms.any (fun m =>
      m.team_id == t.id && m.user_id == t.created_by &&
      m.status == MembershipStatus.active)) = true) :
    teams.all (fun t => (ms ++ extra).any (fun m =>
      m.team_id == t.id && m.user_id == t.created_by &&
      m.status == MembershipStatus.active)) = true := by
  rw [List.all_eq_true] at h ⊢
  intro t ht
  have := h t ht
  rw [List.any_append]
  simp only [this, Bool.true_or]

/-- The creator-membership witness survives the approval rewrite, which
only ever sets a row's status to `active` and fills `joined_at`. -/
lemma inv_memberships_approve (teams : List Team)
    (ms : List TeamMembership) (mid now : Nat)
    (h : teams.all (fun t => ms.any (fun m =>
      m.team_id == t.id && m.user_id == t.created_by &&
      m.status == MembershipStatus.active)) = true) :
    teams.all (fun t => (ms.map (fun m =>
      if m.id == mid then { m with status := .active, joined_at := some now }
      else m)).any (fun m =>
      m.team_id == t.id && m.user_id == t.created_by &&
      m.status == MembershipStatus.active)) = true := by
  rw [List.all_eq_true] at h ⊢
  intro t ht
  rcases List.any_eq_true.mp (h t ht) with ⟨m, hm, hp⟩
  refine List.any_eq_true.mpr ⟨_, List.mem_map.mpr ⟨m, hm, rfl⟩, ?_⟩
  by_cases hid : m.id == mid <;> simp_all

lemma inv_step (op : Op) (now : Nat) (db : DB)
    (h : teamsHaveCreatorMembership db = true) :
    teamsHaveCreatorMembership (stepOp op now db) = true := by
  cases op with
  | insertUser u =>
    simpa [stepOp, teamsHaveCreatorMembership] using h
  | createTeam nm d u =>
    rw [teamsHaveCreatorMembership] at h ⊢
    simp only [stepOp, createTeam]
    rw [List.all_append, Bool.and_eq_true]
    exact ⟨inv_memberships_append _ _ _ h, by simp [List.any_append]⟩
  | requestMembership tid u =>
    rw [stepOp]
    cases hreq : requestTeamMembership tid u now db with
    | error e => exact h
    | ok r =>
      obtain ⟨ht, hm⟩ := requestTeamMembership_ok_shape tid u now db r hreq
      rw [teamsHaveCreatorMembership, ht, hm]
      exact inv_memberships_append _ _ _ h
  | approveMembership mid a =>
    rw [stepOp]
    cases happ : approveTeamMembership mid a now db with
    | error e => exact h
    | ok r =>
      obtain ⟨ht, hm⟩ := approveTeamMembership_ok_shape mid a now db r happ
      rw [teamsHaveCreatorMembership, ht, hm]
      exact inv_memberships_approve _ _ _ _ h
  | createShoppingList tid nm d u =>
    rw [stepOp]
    cases hc : createShoppingList tid nm d u now db with
    | error e => exact h
    | ok r =>
      obtain ⟨ht, hm⟩ := createShoppingList_ok_shape tid nm d u now db r hc
      rw [teamsHaveCreatorMembership, ht, hm]
      exact h
  | updateTask input =>
    rw [stepOp]
    cases hc : updateTask input now db with
    | error e => exact h
    | ok r =>
      obtain ⟨ht, hm⟩ := updateTask_ok_shape input now db r hc
      rw [teamsHaveCreatorMembership, ht, hm]
      exact h
  | updateShoppingItem input u =>
    rw [stepOp]
    cases hc : updateShoppingItem input u now db with
    | error e => exact h
    | ok r =>
      obtain ⟨ht, hm⟩ := updateShoppingItem_ok_shape input u now db r hc
      rw [teamsHaveCreatorMembership, ht, hm]
      exact h
  | createTask input u =>
    rw [stepOp]
    cases hc : createTask input u now db with
    | error e => exact h
    | ok r =>
      obtain ⟨ht, hm⟩ := createTask_ok_shape input u now db r hc
      rw [teamsHaveCreatorMembership, ht, hm]
      exact h
  | createShoppingItem input u =>
    rw [stepOp]
    cases hc : createShoppingItem input u now db with
    | error e => exact h
    | ok r =>
      obtain ⟨ht, hm⟩ := createShoppingItem_ok_shape input u now db r hc
      rw [teamsHaveCreatorMembership, ht, hm]
      exact h
  | createCalendarEvent input u =>
    rw [stepOp]
    cases hc : createCalendarEvent input u now db with
    | error e => exact h
    | ok r =>
      obtain ⟨ht, hm⟩ := createCalendarEvent_ok_shape input u now db r hc
      rw [teamsHaveCreatorMembership, ht, hm]
      exact h
  | updateFeature input =>
    rw [stepOp]
    cases hc : updateFeature input now db with
    | error e => exact h
    | ok r =>
      obtain ⟨ht, hm⟩ := updateFeature_ok_shape input now db r hc
      rw [teamsHaveCreatorMembership, ht, hm]
      exact h
  | updateCalendarEvent input =>
    rw [stepOp]
    cases hc : updateCalendarEvent input now db with
    | error e => exact h
    | ok r =>
      obtain ⟨ht, hm⟩ := updateCalendarEvent_ok_shape input now db r hc
      rw [teamsHaveCreatorMembership, ht, hm]
      exact h

lemma reachable_inv {db : DB} (h : Reachable db) :
    teamsHaveCreatorMembership db = true := by
  induction h with
  | init => decide
  | step op now _ ih => exact inv_step op now _ ih

lemma isPrefixOf_append_self (l t : List Char) :
    l.isPrefixOf (l ++ t) = true := by
  induction l with
  | nil => cases t <;> rfl
  | cons c cs ih => simp [List.isPrefixOf, ih]

lemma subRun_self_append (s t : List Char) : subRun s (s ++ t) = true := by
  cases s with
  | nil =>
    cases t with
    | nil => rfl
    | cons c cs => simp [subRun, List.isPrefixOf]
  | cons c cs =>
    rw [List.cons_append, subRun]
    simp only [Bool.or_eq_true]
    exact Or.inl (isPrefixOf_append_self _ _)

lemma subRun_append_left (s l a : List Char) (h : subRun s l = true) :
    subRun s (a ++ l) = true := by
  induction a with
  | nil => exact h
  | cons c cs ih =>
    rw [List.cons_append, subRun]
    simp only [Bool.or_eq_true]
    exact Or.inr ih

lemma subRun_of_isPrefixOf (s l : List Char) (h : s.isPrefixOf l = true) :
    subRun s l = true := by
  cases l with
  | nil =>
    rcases List.isPrefixOf_iff_prefix.mp h with ⟨t, ht⟩
    rcases List.append_eq_nil.mp ht with ⟨rfl, -⟩
    rfl
  | cons c cs =>
    rw [subRun]
    simp only [Bool.or_eq_true]
    exact Or.inl h

/-- A concatenation mentions its middle part. -/
lemma mentions_middle (a b c : String) : mentions (a ++ b ++ c) b = true := by
  unfold mentions
  have hdata : (a ++ b ++ c).toList = a.toList ++ (b.toList ++ c.toList) := by
    simp [String.toList, String.data_append]
  rw [hdata]
  exact subRun_append_left _ _ _ (subRun_self_append _ _)

/-- A concatenation `l ++ t ++ t'` mentions any verbatim prefix of `l`. -/
lemma mentions_of_isPrefixOf (l t t' frag : String)
    (h : frag.toList.isPrefixOf l.toList = true) :
    mentions (l ++ t ++ t') frag = true := by
  unfold mentions
  have hdata : (l ++ t ++ t').toList =
      l.toList ++ (t.toList ++ t'.toList) := by
    simp [String.toList, String.data_append]
  rw [hdata]
  refine subRun_of_isPrefixOf _ _ ?_
  rw [List.isPrefixOf_iff_prefix] at h ⊢
  exact h.trans (List.prefix_append _ _)

/-- The membership row `createTeam` auto-inserts for the creator. -/
def creatorRow (db : DB) (tid u now : Nat) : TeamMembership :=
  { id := db.nextMembershipId, team_id := tid, user_id := u,
    status := .active, joined_at := some now, created_at := now }

/-- **C3.** `createTeam` writes the team row and the creator's active
membership row (`joined_at = now`) in one atomic step and returns the
team; consequently, in every store reachable by the embedded mutating
handlers, every team row has an active membership row of its creator — a
team is never observable without it. -/
theorem C3_createTeam (nm : String) (d : Option String) (u now : Nat)
    (db : DB) (h : Reachable db) :
    teamsHaveCreatorMembership db = true ∧
    teamsHaveCreatorMembership (createTeam nm d u now db).2 = true ∧
    (createTeam nm d u now db).2.teams =
      db.teams ++ [(createTeam nm d u now db).1] ∧
    (createTeam nm d u now db).1.created_by = u ∧
    (createTeam nm d u now db).1.name = nm ∧
    (∃ m ∈ (createTeam nm d u now db).2.memberships,
      m.team_id = (createTeam nm d u now db).1.id ∧ m.user_id = u ∧
      m.status = MembershipStatus.active ∧ m.joined_at = some now) ∧
    (createTeam nm d u now db).2.memberships =
      db.memberships ++
        [creatorRow db (createTeam nm d u now db).1.id u now] := by
  refine ⟨reachable_inv h, ?_, rfl, rfl, rfl, ?_, rfl⟩
  · exact inv_step (.createTeam nm d u) now db (reachable_inv h)
  · refine ⟨creatorRow db (createTeam nm d u now db).1.id u now,
      ?_, rfl, rfl, rfl, rfl⟩
    simp [createTeam, creatorRow]

/-- Witness for C3: creating a team in the empty (reachable) store; both
the invariant and the two inserted rows are exhibited there. -/
theorem C3_witness :
    teamsHaveCreatorMembership DB.init = true ∧
    teamsHaveCreatorMembership (createTeam "T" none 7 3 DB.init).2 = true ∧
    (createTeam "T" none 7 3 DB.init).2.teams =
      DB.init.teams ++ [(createTeam "T" none 7 3 DB.init).1] ∧
    (createTeam "T" none 7 3 DB.init).1.created_by = 7 ∧
    (createTeam "T" none 7 3 DB.init).1.name = "T" ∧
    (∃ m ∈ (createTeam "T" none 7 3 DB.init).2.memberships,
      m.team_id = (createTeam "T" none 7 3 DB.init).1.id ∧ m.user_id = 7 ∧
      m.status = MembershipStatus.active ∧ m.joined_at = some 3) ∧
    (createTeam "T" none 7 3 DB.init).2.memberships =
      DB.init.memberships ++
        [creatorRow DB.init (createTeam "T" none 7 3 DB.init).1.id 7 3] :=
  C3_createTeam "T" none 7 3 DB.init Reachable.init

/-- **C9, counterexample.** Not every not-found failure names the looked-up
id: requesting membership of the nonexistent team 7 fails with the fixed
message "Team not found", which does not mention "7" anywhere. -/
theorem C9_counterexample :
    requestTeamMembership 7 1 0 DB.init = .error "Team not found" ∧
    mentions "Team not found" "7" = false :=
  ⟨rfl, by decide⟩

/-- **C9, amended.** Every embedded not-found failure names the entity
kind, and the update/create handlers — `updateTask`, `updateShoppingItem`,
`updateFeature`, `updateCalendarEvent`, `createTask` (both its todo-list
and its assigned-user check), `createShoppingItem`, `createShoppingList`
and `createCalendarEvent` — also name the looked-up id in the message; the
membership handlers (`requestTeamMembership` with its team and user
checks, `approveTeamMembership`) return fixed messages naming only the
entity kind, independent of the id. -/
theorem C9_notFound_messages (now u mid tid tid2 : Nat) (db : DB)
    (input : UpdateTaskInput) (input' : UpdateShoppingItemInput)
    (inputF : UpdateFeatureInput) (inputE : UpdateCalendarEventInput)
    (inputT : CreateTaskInput) (inputI : CreateShoppingItemInput)
    (inputC : CreateCalendarEventInput)
    (nm : String) (d : Option String) :
    ((∀ t ∈ db.tasks, t.id ≠ input.id) →
      updateTask input now db =
        .error ("Task with id " ++ toString input.id ++ " not found") ∧
      mentions ("Task with id " ++ toString input.id ++ " not found")
        "Task" = true ∧
      mentions ("Task with id " ++ toString input.id ++ " not found")
        (toString input.id) = true) ∧
    ((∀ s ∈ db.shoppingItems, s.id ≠ input'.id) →
      updateShoppingItem input' u now db =
        .error ("Shopping item with id " ++ toString input'.id ++
          " not found") ∧
      mentions ("Shopping item with id " ++ toString input'.id ++
        " not found") "Shopping item" = true ∧
      mentions ("Shopping item with id " ++ toString input'.id ++
        " not found") (toString input'.id) = true) ∧
    ((∀ f ∈ db.features, f.id ≠ inputF.id) →
      updateFeature inputF now db =
        .error ("Feature with id " ++ toString inputF.id ++ " not found") ∧
      mentions ("Feature with id " ++ toString inputF.id ++ " not found")
        "Feature" = true ∧
      mentions ("Feature with id " ++ toString inputF.id ++ " not found")
        (toString inputF.id) = true) ∧
    ((∀ e ∈ db.events, e.id ≠ inputE.id) →
      updateCalendarEvent inputE now db =
        .error ("Calendar event with id " ++ toString inputE.id ++
          " not found") ∧
      mentions ("Calendar event with id " ++ toString inputE.id ++
        " not found") "Calendar event" = true ∧
      mentions ("Calendar event with id " ++ toString inputE.id ++
        " not found") (toString inputE.id) = true) ∧
    ((∀ l ∈ db.todoLists, l.id ≠ inputT.todo_list_id) →
      createTask inputT u now db =
        .error ("Todo list with ID " ++ toString inputT.todo_list_id ++
          " not found") ∧
      mentions ("Todo list with ID " ++ toString inputT.todo_list_id ++
        " not found") "Todo list" = true ∧
      mentions ("Todo list with ID " ++ toString inputT.todo_list_id ++
        " not found") (toString inputT.todo_list_id) = true) ∧
    ((∃ l ∈ db.todoLists, l.id = inputT.todo_list_id) →
      ∀ a, jsTruthyNat inputT.assigned_to = some a →
      (∀ x ∈ db.users, x.id ≠ a) →
      createTask inputT u now db =
        .error ("User with ID " ++ toString a ++ " not found") ∧
      mentions ("User with ID " ++ toString a ++ " not found")
        "User" = true ∧
      mentions ("User with ID " ++ toString a ++ " not found")
        (toString a) = true) ∧
    ((∀ l ∈ db.shoppingLists, l.id ≠ inputI.shopping_list_id) →
      createShoppingItem inputI u now db =
        .error ("Shopping list with id " ++
          toString inputI.shopping_list_id ++ " not found") ∧
      mentions ("Shopping list with id " ++
        toString inputI.shopping_list_id ++ " not found")
        "Shopping list" = true ∧
      mentions ("Shopping list with id " ++
        toString inputI.shopping_list_id ++ " not found")
        (toString inputI.shopping_list_id) = true) ∧
    ((∀ t ∈ db.teams, t.id ≠ tid) →
      createShoppingList tid nm d u now db =
        .error ("Team with id " ++ toString tid ++ " does not exist") ∧
      mentions ("Team with id " ++ toString tid ++ " does not exist")
        "Team" = true ∧
      mentions ("Team with id " ++ toString tid ++ " does not exist")
        (toString tid) = true) ∧
    ((∀ t ∈ db.teams, t.id ≠ inputC.team_id) →
      createCalendarEvent inputC u now db =
        .error ("Team with id " ++ toString inputC.team_id ++
          " not found") ∧
      mentions ("Team with id " ++ toString inputC.team_id ++ " not found")
        "Team" = true ∧
      mentions ("Team with id " ++ toString inputC.team_id ++ " not found")
        (toString inputC.team_id) = true) ∧
    ((∀ t ∈ db.teams, t.id ≠ tid) →
      requestTeamMembership tid u now db = .error "Team not found") ∧
    ((∃ t ∈ db.teams, t.id = tid2) → (∀ x ∈ db.users, x.id ≠ u) →
      requestTeamMembership tid2 u now db = .error "User not found") ∧
    (db.memberships.find? (fun m => m.id == mid) = none →
      approveTeamMembership mid u now db =
        .error "Membership request not found") := by
  refine ⟨?_, ?_, ?_, ?_, ?_, ?_, ?_, ?_, ?_, ?_, ?_, ?_⟩
  · intro h
    have hF : db.tasks.find? (fun x => x.id == input.id) = none := by
      rw [List.find?_eq_none]
      intro t ht
      simpa using h t ht
    exact ⟨by simp [updateTask, hF],
      mentions_of_isPrefixOf "Task with id " _ _ "Task" (by decide),
      mentions_middle "Task with id " _ " not found"⟩
  · intro h
    have hF : db.shoppingItems.find? (fun x => x.id == input'.id) = none := by
      rw [List.find?_eq_none]
      intro s hs
      simpa using h s hs
    exact ⟨by simp [updateShoppingItem, hF],
      mentions_of_isPrefixOf "Shopping item with id " _ _ "Shopping item"
        (by decide),
      mentions_middle "Shopping item with id " _ " not found"⟩
  · intro h
    have hF : db.features.find? (fun x => x.id == inputF.id) = none := by
      rw [List.find?_eq_none]
      intro f hf
      simpa using h f hf
    exact ⟨by simp [updateFeature, hF],
      mentions_of_isPrefixOf "Feature with id " _ _ "Feature" (by decide),
      mentions_middle "Feature with id " _ " not found"⟩
  · intro h
    have hF : db.events.find? (fun x => x.id == inputE.id) = none := by
      rw [List.find?_eq_none]
      intro e he
      simpa using h e he
    exact ⟨by simp [updateCalendarEvent, hF],
      mentions_of_isPrefixOf "Calendar event with id " _ _ "Calendar event"
        (by decide),
      mentions_middle "Calendar event with id " _ " not found"⟩
  · intro h
    have hL : (db.todoLists.filter
        (fun l => l.id == inputT.todo_list_id)).isEmpty = true := by
      rw [filter_isEmpty_true_iff]
      intro l hl
      simpa using h l hl
    exact ⟨by simp [createTask, hL],
      mentions_of_isPrefixOf "Todo list with ID " _ _ "Todo list"
        (by decide),
      mentions_middle "Todo list with ID " _ " not found"⟩
  · intro hl a htn h
    have hL : (db.todoLists.filter
        (fun l => l.id == inputT.todo_list_id)).isEmpty = false := by
      rw [filter_isEmpty_false_iff]; simpa using hl
    have hU : (db.users.filter (fun x => x.id == a)).isEmpty = true := by
      rw [filter_isEmpty_true_iff]
      intro x hx
      simpa using h x hx
    exact ⟨by simp [createTask, hL, htn, hU],
      mentions_of_isPrefixOf "User with ID " _ _ "User" (by decide),
      mentions_middle "User with ID " _ " not found"⟩
  · intro h
    have hL : (db.shoppingLists.filter
        (fun l => l.id == inputI.shopping_list_id)).isEmpty = true := by
      rw [filter_isEmpty_true_iff]
      intro l hl
      simpa using h l hl
    exact ⟨by simp [createShoppingItem, hL],
      mentions_of_isPrefixOf "Shopping list with id " _ _ "Shopping list"
        (by decide),
      mentions_middle "Shopping list with id " _ " not found"⟩
  · intro h
    have hT : (db.teams.filter (fun t => t.id == tid)).isEmpty = true := by
      rw [filter_isEmpty_true_iff]
      intro t ht
      simpa using h t ht
    exact ⟨by simp [createShoppingList, hT],
      mentions_of_isPrefixOf "Team with id " _ _ "Team" (by decide),
      mentions_middle "Team with id " _ " does not exist"⟩
  · intro h
    have hT : (db.teams.filter
        (fun t => t.id == inputC.team_id)).isEmpty = true := by
      rw [filter_isEmpty_true_iff]
      intro t ht
      simpa using h t ht
    exact ⟨by simp [createCalendarEvent, hT],
      mentions_of_isPrefixOf "Team with id " _ _ "Team" (by decide),
      mentions_middle "Team with id " _ " not found"⟩
  · intro h
    have hT : (db.teams.filter (fun t => t.id == tid)).isEmpty = true := by
      rw [filter_isEmpty_true_iff]
      intro t ht
      simpa using h t ht
    simp [requestTeamMembership, hT]
  · intro ht h
    have hT : (db.teams.filter (fun t => t.id == tid2)).isEmpty = false := by
      rw [filter_isEmpty_false_iff]; simpa using ht
    have hU : (db.users.filter (fun x => x.id == u)).isEmpty = true := by
      rw [filter_isEmpty_true_iff]
      intro x hx
      simpa using h x hx
    simp [requestTeamMembership, hT, hU]
  · intro h
    simp [approveTeamMembership, h]

/-- The C9 witness input for `updateTask`: only the (missing) id. -/
def inputC9t : UpdateTaskInput :=
  { id := 4, title := none, description := none, priority := none,
    status := none, assigned_to := none, due_date := none }

/-- The C9 witness input for `updateShoppingItem`: only the (missing) id. -/
def inputC9s : UpdateShoppingItemInput :=
  { id := 5, name := none, quantity := none, comment := none,
    is_purchased := none }

/-- The C9 witness input for `updateFeature`: only the (missing) id. -/
def inputC9f : UpdateFeatureInput :=
  { id := 6, is_enabled_free := none, is_enabled_paid := none }

/-- The C9 witness input for `updateCalendarEvent`: only the (missing)
id. -/
def inputC9e : UpdateCalendarEventInput :=
  { id := 7, title := none, description := none, start_time := none,
    end_time := none, is_all_day := none, location := none }

/-- The C9 witness input for `createTask`: an existing todo list but a
truthy assignee id with no user row. -/
def inputC9ct : CreateTaskInput :=
  { todo_list_id := 1, title := "t", description := none, priority := none,
    assigned_to := some (some 8), due_date := none }

/-- The C9 witness input for `createShoppingItem`: a missing list id. -/
def inputC9ci : CreateShoppingItemInput :=
  { shopping_list_id := 9, name := "x", quantity := 1, comment := none }

/-- The C9 witness input for `createCalendarEvent`: a missing team id. -/
def inputC9cc : CreateCalendarEventInput :=
  { team_id := 10, title := "e", description := none, start_time := 0,
    end_time := 1, is_all_day := false, location := none }

/-- The C9 witness store: team 5 and todo list 1 exist; every other id
the witness inputs reference is absent, and `usersTable` is empty. -/
def dbC9 : DB :=
  { DB.init with
    teams := [{ id := 5, name := "T", description := none, created_by := 7,
                created_at := 0, updated_at := 0 }],
    todoLists := [{ id := 1, team_id := 5, name := "L", description := none,
                    created_by := 7, created_at := 0, updated_at := 0 }] }

/-- Witness for the amended C9: in `dbC9` the id-bearing messages of
`updateTask`, `updateFeature` and `createTask`'s assignee check, and the
fixed kind-only messages of both `requestTeamMembership` branches and of
`approveTeamMembership`, all fire. -/
theorem C9_witness :
    (updateTask inputC9t 0 dbC9 =
      .error ("Task with id " ++ toString inputC9t.id ++ " not found") ∧
     mentions ("Task with id " ++ toString inputC9t.id ++ " not found")
       "Task" = true ∧
     mentions ("Task with id " ++ toString inputC9t.id ++ " not found")
       (toString inputC9t.id) = true) ∧
    (updateFeature inputC9f 0 dbC9 =
      .error ("Feature with id " ++ toString inputC9f.id ++ " not found") ∧
     mentions ("Feature with id " ++ toString inputC9f.id ++ " not found")
       "Feature" = true ∧
     mentions ("Feature with id " ++ toString inputC9f.id ++ " not found")
       (toString inputC9f.id) = true) ∧
    (createTask inputC9ct 1 0 dbC9 =
      .error ("User with ID " ++ toString (8 : Nat) ++ " not found") ∧
     mentions ("User with ID " ++ toString (8 : Nat) ++ " not found")
       "User" = true ∧
     mentions ("User with ID " ++ toString (8 : Nat) ++ " not found")
       (toString (8 : Nat)) = true) ∧
    (requestTeamMembership 3 1 0 dbC9 = .error "Team not found") ∧
    (requestTeamMembership 5 1 0 dbC9 = .error "User not found") ∧
    (approveTeamMembership 2 1 0 dbC9 =
      .error "Membership request not found") := by
  have h := C9_notFound_messages 0 1 2 3 5 dbC9 inputC9t inputC9s inputC9f
    inputC9e inputC9ct inputC9ci inputC9cc "L" none
  refine ⟨h.1 (by decide), h.2.2.1 (by decide), ?_, ?_, ?_, ?_⟩
  · exact h.2.2.2.2.2.1
      ⟨{ id := 1, team_id := 5, name := "L", description := none,
         created_by := 7, created_at := 0, updated_at := 0 },
       by decide, by decide⟩ 8 (by decide) (by decide)
  · exact h.2.2.2.2.2.2.2.2.2.1 (by decide)
  · exact h.2.2.2.2.2.2.2.2.2.2.1
      ⟨{ id := 5, name := "T", description := none, created_by := 7,
         created_at := 0, updated_at := 0 }, by decide, by decide⟩
      (by decide)
  · exact h.2.2.2.2.2.2.2.2.2.2.2 (by decide)

/-- Witness for C7: with range [12, 30], only the later event qualifies,
and the unrestricted listing is descending. -/
theorem C7_witness :
    (evB ∈ getTeamCalendarEvents 5 (some 12) (some 30) dbC7 ↔
      (evB ∈ dbC7.events ∧ evB.team_id = 5 ∧
       (∀ d, (some 12 : Option Nat) = some d → d ≤ evB.start_time) ∧
       (∀ d, (some 30 : Option Nat) = some d → evB.end_time ≤ d))) ∧
    List.Pairwise (fun a b => b.start_time ≤ a.start_time)
      (getTeamCalendarEvents 5 none none dbC7) :=
  ⟨(C7_getTeamCalendarEvents 5 (some 12) (some 30) dbC7).1 evB,
   (C7_getTeamCalendarEvents 5 none none dbC7).2⟩

end TeamSync
